import Mathlib

/-!
Verification development for the blog post generation and publication
pipeline (a Python repository).  The core under study is the publication
orchestrator (src/services/blog_service.py), the quality gate
(src/quality/checkers.py), the content pipeline facade
(src/generators/openai_generator.py) and the data model
(src/core/models.py, src/core/config.py).  External collaborators (the
LLM calls, HTTP transport, the SQLite store) are modelled at their
interface boundary as explicit outcome values; everything else is a
direct shallow embedding of the Python source.

Numbers: Python floats used by the quality gate are embedded as rationals
(all arithmetic performed by the gate is exact decimal arithmetic, so this
is faithful); datetime instants are embedded as abstract Nat timestamps.
-/

namespace BlogAuto

/-- Timestamps stand in for Python datetime values; the core never computes
with them, it only stores and forwards them. -/
abbrev Timestamp := Nat

/-- PostStatus from core/models.py: the WordPress-side post status. -/
inductive PostStatus
  | draft
  | publish
  | future
  | private_
  deriving Repr, DecidableEq

/-- Value of the str-enum, as serialized to the REST payload. -/
def PostStatus.value : PostStatus → String
  | .draft => "draft"
  | .publish => "publish"
  | .future => "future"
  | .private_ => "private"

/-- ScheduleMode from core/models.py. -/
inductive ScheduleMode
  | draft
  | publish
  | schedule
  deriving Repr, DecidableEq

/-- ImageInfo from core/models.py. -/
structure ImageInfo where
  path : String
  alt : String
  use_as_featured : Bool := false
  wp_media_id : Option Nat := none
  deriving Repr, DecidableEq

/-- ScheduleInfo from core/models.py.  The model declares exactly two
fields: mode, and the optional timestamp field named scheduled_at (the
source carries a comment marking that this field was renamed). -/
structure ScheduleInfo where
  mode : ScheduleMode
  scheduled_at : Option Timestamp := none
  deriving Repr, DecidableEq

/-- PostContent from core/models.py.  Note that it carries no title
field: the topic string doubles as the title downstream. -/
structure PostContent where
  topic : String
  outline : List String
  content_html : String
  excerpt : String
  slug : String
  categories : List String
  tags : List String
  images : List ImageInfo := []
  schedule : ScheduleInfo
  deriving Repr, DecidableEq

/-- WordPressPost from core/models.py.  The free-form meta mapping is
omitted: the orchestrator never sets it and it defaults to empty.
Category and tag id lists hold the Optional ids of the resolved
entities, exactly as the list comprehensions in the orchestrator build
them. -/
structure WordPressPost where
  id : Option Nat := none
  title : String
  content : String
  excerpt : String
  slug : String
  status : PostStatus
  date : Option Timestamp := none
  categories : List (Option Nat) := []
  tags : List (Option Nat) := []
  featured_media : Option Nat := none
  deriving Repr, DecidableEq

/-- WordPressMedia from core/models.py. -/
structure WordPressMedia where
  id : Option Nat := none
  title : String
  alt_text : String
  source_url : Option String := none
  mime_type : Option String := none
  deriving Repr, DecidableEq

/-- Category from core/models.py. -/
structure Category where
  id : Option Nat := none
  name : String
  slug : String
  deriving Repr, DecidableEq

/-- Tag from core/models.py. -/
structure Tag where
  id : Option Nat := none
  name : String
  slug : String
  deriving Repr, DecidableEq

/-- QualityCheckResult from core/models.py. -/
structure QualityCheckResult where
  passed : Bool
  score : ℚ
  issues : List String := []
  suggestions : List String := []
  deriving Repr, DecidableEq

/-- GenerationJob from core/models.py: the persisted job record. -/
structure GenerationJob where
  id : String
  topic : String
  status : String
  created_at : Timestamp
  scheduled_at : Option Timestamp := none
  completed_at : Option Timestamp := none
  wp_post_id : Option Nat := none
  error_message : Option String := none
  content : Option PostContent := none
  deriving Repr, DecidableEq

/-- The subset of Settings (core/config.py) read by the embedded core:
the WordPress base url, the content defaults, and the quality-gate
configuration.  Note config.py declares exactly two quality toggles:
plagiarism_check_enabled and grammar_check_enabled. -/
structure Settings where
  wordpress_url : String
  default_category : String
  default_tags : String
  min_word_count : Nat
  max_word_count : Nat
  plagiarism_check_enabled : Bool
  grammar_check_enabled : Bool
  deriving Repr, DecidableEq

/-- Split a character list at commas (Python str.split with a comma
separator: the empty string yields one empty field). -/
def splitComma (cur : List Char) : List Char → List (List Char)
  | [] => [cur.reverse]
  | ch :: rest =>
    if ch = ',' then cur.reverse :: splitComma [] rest
    else splitComma (ch :: cur) rest

/-- Python str.strip: drop whitespace from both ends. -/
def stripChars (cs : List Char) : List Char :=
  ((cs.dropWhile Char.isWhitespace).reverse.dropWhile Char.isWhitespace).reverse

/-- Settings.default_tags_list property: split the default_tags string on
commas and strip whitespace from each entry. -/
def default_tags_list (st : Settings) : List String :=
  (splitComma [] st.default_tags.data).map (fun cs => String.mk (stripChars cs))

/-- Maximal alphanumeric runs of a character list, lowercased; cur
accumulates the current run in reverse. -/
def alnumRuns (cur : List Char) : List Char → List (List Char)
  | [] => if cur.isEmpty then [] else [cur.reverse]
  | ch :: rest =>
    if ch.isAlphanum then alnumRuns (ch.toLower :: cur) rest
    else if cur.isEmpty then alnumRuns [] rest
    else cur.reverse :: alnumRuns [] rest

/-- Model of the python-slugify library call used by the source (ASCII
behaviour): lowercase, collapse runs of non-alphanumeric characters to
single hyphens, trim leading and trailing hyphens. -/
def slugify (s : String) : String :=
  String.intercalate "-" ((alnumRuns [] s.data).map (fun cs => String.mk cs))

/-- Python exceptions surfaced by the embedded core. -/
inductive PyError
  | attributeError (msg : String)
  | valueError (msg : String)
  | collaborator (msg : String)
  deriving Repr, DecidableEq

/-- Python str(e) of an exception: its message. -/
def PyError.str : PyError → String
  | .attributeError m => m
  | .valueError m => m
  | .collaborator m => m

/-- Python attribute access schedule_info.datetime, as performed by the
orchestrator (blog_service.py lines 48 and 99).  ScheduleInfo
(core/models.py) declares only the fields mode and scheduled_at - the
timestamp field was renamed to scheduled_at, per the comment in the
model - so pydantic raises AttributeError for the name datetime. -/
def ScheduleInfo.attrDatetime (_s : ScheduleInfo) : Except PyError (Option Timestamp) :=
  .error (.attributeError "ScheduleInfo object has no attribute datetime")

/-! ## Quality gate (src/quality/checkers.py, ComprehensiveQualityChecker)

The four sub-checkers (spelling, grammar, plagiarism similarity, link
reachability) and the BeautifulSoup text extraction are external calls;
their responses for one evaluation are collected in SubResults.  The
scoring logic of check_quality is embedded stage by stage in source
order. -/

/-- Responses of the external sub-checkers for one evaluation, plus the
markup-stripped text of the content body (BeautifulSoup get_text). -/
structure SubResults where
  pageText : String
  spellErrors : List String := []
  grammarErrors : List String := []
  similarity : ℚ := 0
  brokenLinks : List String := []
  deriving Repr, DecidableEq

/-- Count of maximal non-whitespace runs in a character list; inTok
records whether the previous character belonged to a token. -/
def countTokens : List Char → Bool → Nat
  | [], _ => 0
  | ch :: rest, inTok =>
    if ch.isWhitespace then countTokens rest false
    else (if inTok then 0 else 1) + countTokens rest true

/-- The private word counter of checkers.py: the number of
whitespace-delimited tokens of the markup-stripped text (str.split
drops empty tokens; the extra strip filter in the source is a no-op on
such tokens). -/
def count_words (text : String) : Nat :=
  countTokens text.data false

/-- Issue message for a body below the minimum word count. -/
def tooShortMsg (wc minW : Nat) : String :=
  "내용이 너무 짧습니다 (" ++ toString wc ++ "자, 최소 " ++ toString minW ++ "자)"

/-- Issue message for a body above the maximum word count. -/
def tooLongMsg (wc maxW : Nat) : String :=
  "내용이 너무 깁니다 (" ++ toString wc ++ "자, 최대 " ++ toString maxW ++ "자)"

/-- Issue message for a short excerpt. -/
def excerptShortMsg : String := "메타 설명이 너무 짧습니다"

/-- Issue message for a long slug. -/
def slugLongMsg : String := "슬러그가 너무 깁니다"

/-- Issue message for a broken link. -/
def brokenLinkMsg (url : String) : String := "깨진 링크: " ++ url

/-- One-decimal rendering of a rational, standing in for the Python
format spec .1f used in the similarity message. -/
def fmt1 (q : ℚ) : String :=
  let t : Int := (q * 10).floor
  toString (t / 10) ++ "." ++ toString (t % 10)

/-- Issue message for high plagiarism similarity. -/
def simMsg (s : ℚ) : String := "높은 유사도 검출: " ++ fmt1 s ++ "%"

/-- Stage 1 of check_quality: the word-count check (always runs).
Below minimum: issue and minus 20; above maximum: issue and minus 10. -/
def wordStage (st : Settings) (wc : Nat) (acc : List String × ℚ) : List String × ℚ :=
  if wc < st.min_word_count then (acc.1 ++ [tooShortMsg wc st.min_word_count], acc.2 - 20)
  else if wc > st.max_word_count then (acc.1 ++ [tooLongMsg wc st.max_word_count], acc.2 - 10)
  else acc

/-- Stage 2 of check_quality: the spelling check.  In the source this
block is guarded by settings.grammar_check_enabled (not by a spelling
flag); each reported error costs 5 points. -/
def spellStage (st : Settings) (r : SubResults) (acc : List String × ℚ) : List String × ℚ :=
  if st.grammar_check_enabled then
    if r.spellErrors ≠ [] then
      (acc.1 ++ r.spellErrors, acc.2 - 5 * (r.spellErrors.length : ℚ))
    else acc
  else acc

/-- Stage 3 of check_quality: the grammar check.  It is not guarded by
any flag; each reported error costs 3 points. -/
def grammarStage (r : SubResults) (acc : List String × ℚ) : List String × ℚ :=
  if r.grammarErrors ≠ [] then
    (acc.1 ++ r.grammarErrors, acc.2 - 3 * (r.grammarErrors.length : ℚ))
  else acc

/-- Stage 4 of check_quality: the plagiarism check, guarded by
settings.plagiarism_check_enabled; similarity above 50 records an issue
and debits similarity divided by 2. -/
def plagStage (st : Settings) (r : SubResults) (acc : List String × ℚ) : List String × ℚ :=
  if st.plagiarism_check_enabled then
    if 50 < r.similarity then
      (acc.1 ++ [simMsg r.similarity], acc.2 - r.similarity / 2)
    else acc
  else acc

/-- Stage 5 of check_quality: the link check.  It is not guarded by any
flag; each broken link costs 10 points. -/
def linkStage (r : SubResults) (acc : List String × ℚ) : List String × ℚ :=
  if r.brokenLinks ≠ [] then
    (acc.1 ++ r.brokenLinks.map brokenLinkMsg, acc.2 - 10 * (r.brokenLinks.length : ℚ))
  else acc

/-- Stage 6 of check_quality: the SEO checks (always run).  An empty or
short excerpt costs 5; a slug longer than 50 characters costs 3. -/
def seoStage (c : PostContent) (acc : List String × ℚ) : List String × ℚ :=
  let acc1 :=
    if c.excerpt = "" ∨ c.excerpt.length < 50 then (acc.1 ++ [excerptShortMsg], acc.2 - 5)
    else acc
  if 50 < c.slug.length then (acc1.1 ++ [slugLongMsg], acc1.2 - 3) else acc1

/-- Issues and running (pre-clamp) score of check_quality, stages applied
in source order starting from the empty issue list and score 100. -/
def quality_raw (st : Settings) (c : PostContent) (r : SubResults) : List String × ℚ :=
  seoStage c (linkStage r (plagStage st r (grammarStage r
    (spellStage st r (wordStage st (count_words r.pageText) ([], 100))))))

/-- Advisory suggestions of check_quality (non-scoring). -/
def quality_suggestions (c : PostContent) (r : SubResults) : List String :=
  (if count_words r.pageText < 1000 then
    ["더 자세한 내용을 추가하여 독자에게 더 많은 가치를 제공하세요"] else [])
  ++ (if c.images = [] then ["시각적 요소를 추가하여 독자 경험을 향상시키세요"] else [])

/-- Python min on two rationals. -/
def pymin (a b : ℚ) : ℚ := if a ≤ b then a else b

/-- Python max on two rationals. -/
def pymax (a b : ℚ) : ℚ := if a ≤ b then b else a

/-- ComprehensiveQualityChecker.check_quality: run all stages, clamp the
final score into the interval from 0 to 100, and pass exactly when the
clamped score is at least 70 and at most 3 issues were recorded. -/
def check_quality (st : Settings) (c : PostContent) (r : SubResults) : QualityCheckResult :=
  let final : ℚ := pymax 0 (pymin 100 (quality_raw st c r).2)
  { passed := decide (70 ≤ final) && decide ((quality_raw st c r).1.length ≤ 3)
    score := final
    issues := (quality_raw st c r).1
    suggestions := quality_suggestions c r }

/-! ## Content pipeline (src/generators/openai_generator.py)

OpenAIContentGenerator.generate_content sequences three collaborator
calls: outline generation, body writing, SEO metadata extraction.  Their
per-run responses form GenEnv; the SEO response is an Option inside the
Except because a response that is delivered but fails JSON parsing is
handled locally by the fallback (not an exception). -/

/-- Parsed SEO metadata dictionary returned by the optimizer. -/
structure SeoMeta where
  title : String
  excerpt : String
  slug : String
  keywords : String
  deriving Repr, DecidableEq

/-- Collaborator responses for one generate_content run.  seoJson is
ok none when the LLM responded but its reply was not valid JSON
(json.JSONDecodeError in the source). -/
structure GenEnv where
  outlineResult : Except PyError (List String)
  writeResult : Except PyError String
  seoJson : Except PyError (Option SeoMeta)
  deriving Repr

/-- OpenAISEOOptimizer.optimize_content: return the parsed metadata, or
on JSON parse failure the deterministic default - topic as title, the
canned excerpt, the slugified topic, the topic as sole keyword. -/
def optimize_content (seoJson : Except PyError (Option SeoMeta)) (topic : String) :
    Except PyError SeoMeta :=
  match seoJson with
  | .error e => .error e
  | .ok (some m) => .ok m
  | .ok none =>
      .ok { title := topic
            excerpt := topic ++ "에 대한 상세한 정보를 제공합니다."
            slug := slugify topic
            keywords := topic }

/-- Python falsiness of an optional list argument: None and the empty
list both select the default. -/
def orDefaultList (v : Option (List String)) (d : List String) : List String :=
  match v with
  | none => d
  | some [] => d
  | some l => l

/-- OpenAIContentGenerator.generate_content: outline, body, SEO metadata
in sequence, then defaults for missing schedule, categories and tags,
then assemble the PostContent.  The optimized title is not stored:
PostContent has no title field. -/
def generate_content (st : Settings) (genv : GenEnv) (topic : String)
    (schedule_info : Option ScheduleInfo) (categories tags : Option (List String)) :
    Except PyError PostContent :=
  match genv.outlineResult with
  | .error e => .error e
  | .ok outline =>
    match genv.writeResult with
    | .error e => .error e
    | .ok content_html =>
      match optimize_content genv.seoJson topic with
      | .error e => .error e
      | .ok seo_meta =>
          .ok { topic := topic
                outline := outline
                content_html := content_html
                excerpt := seo_meta.excerpt
                slug := seo_meta.slug
                categories := orDefaultList categories [st.default_category]
                tags := orDefaultList tags (default_tags_list st)
                images := []
                schedule := schedule_info.getD { mode := .draft, scheduled_at := none } }

/-! ## Publication orchestrator (src/services/blog_service.py)

Collaborator calls made by the orchestrator are recorded in a trace of
RemoteCall values, in issue order, so that properties about which remote
calls happen (and in which order) are statable. -/

/-- Remote calls the orchestrator can issue against WordPress. -/
inductive RemoteCall
  | getCategories
  | createCategory (name slug : String)
  | getTags
  | createTag (name slug : String)
  | uploadMedia (path : String)
  | createPost (post : WordPressPost)
  deriving Repr, DecidableEq

/-- Outcomes of the collaborators for one orchestrator run.  genContent
abstracts the content generator interface (it receives the schedule,
category and tag arguments the orchestrator forwards); the WordPress
client operations may each fail. -/
structure WorkflowEnv where
  genContent : ScheduleInfo → Option (List String) → Option (List String) →
    Except PyError PostContent
  featuredImage : Except PyError ImageInfo
  quality : Except PyError QualityCheckResult
  getCategories : Except PyError (List Category)
  createCategory : String → String → Except PyError Category
  getTags : Except PyError (List Tag)
  createTag : String → String → Except PyError Tag
  uploadMedia : String → String → String → Except PyError WordPressMedia
  createPost : WordPressPost → Except PyError WordPressPost

/-- BlogService._get_wp_status: map the schedule mode to the WordPress
post status. -/
def get_wp_status (schedule_mode : ScheduleMode) : PostStatus :=
  if schedule_mode = ScheduleMode.publish then PostStatus.publish
  else if schedule_mode = ScheduleMode.schedule then PostStatus.future
  else PostStatus.draft

/-- Quality-gate override in create_and_publish_post: content that fails
the gate has its schedule mode forced to draft. -/
def applyQualityGate (q : QualityCheckResult) (c : PostContent) : PostContent :=
  if q.passed then c
  else { c with schedule := { c.schedule with mode := ScheduleMode.draft } }

/-- Python dict comprehension over the fetched category list keyed by
name (on duplicate names the last entry wins), queried with one name. -/
def lookupCategory (existing : List Category) (name : String) : Option Category :=
  (existing.filter (fun c => c.name == name)).getLast?

/-- Same name-keyed lookup for tags. -/
def lookupTag (existing : List Tag) (name : String) : Option Tag :=
  (existing.filter (fun t => t.name == name)).getLast?

/-- Loop body of _get_or_create_categories: walk the requested names in
input order, reuse an existing entity on a name match, otherwise issue a
creation call with the slugified name.  Returns the issued creation
calls (in order, including those before a failing call) and the result. -/
def getOrCreateCategoriesLoop (lookup : String → Option Category)
    (create : String → String → Except PyError Category) :
    List String → List RemoteCall × Except PyError (List Category)
  | [] => ([], .ok [])
  | n :: rest =>
    match lookup n with
    | some cat =>
        let (cs, res) := getOrCreateCategoriesLoop lookup create rest
        (cs, res.map (fun l => cat :: l))
    | none =>
        match create n (slugify n) with
        | .error e => ([.createCategory n (slugify n)], .error e)
        | .ok newCat =>
            let (cs, res) := getOrCreateCategoriesLoop lookup create rest
            (.createCategory n (slugify n) :: cs, res.map (fun l => newCat :: l))

/-- BlogService._get_or_create_categories: fetch the remote category
list once, then resolve each requested name in order. -/
def get_or_create_categories (env : WorkflowEnv) (names : List String) :
    List RemoteCall × Except PyError (List Category) :=
  match env.getCategories with
  | .error e => ([.getCategories], .error e)
  | .ok existing =>
      let (cs, res) := getOrCreateCategoriesLoop (lookupCategory existing) env.createCategory names
      (.getCategories :: cs, res)

/-- Loop body of _get_or_create_tags, mirroring the category loop. -/
def getOrCreateTagsLoop (lookup : String → Option Tag)
    (create : String → String → Except PyError Tag) :
    List String → List RemoteCall × Except PyError (List Tag)
  | [] => ([], .ok [])
  | n :: rest =>
    match lookup n with
    | some tag =>
        let (cs, res) := getOrCreateTagsLoop lookup create rest
        (cs, res.map (fun l => tag :: l))
    | none =>
        match create n (slugify n) with
        | .error e => ([.createTag n (slugify n)], .error e)
        | .ok newTag =>
            let (cs, res) := getOrCreateTagsLoop lookup create rest
            (.createTag n (slugify n) :: cs, res.map (fun l => newTag :: l))

/-- BlogService._get_or_create_tags: fetch the remote tag list once,
then resolve each requested name in order. -/
def get_or_create_tags (env : WorkflowEnv) (names : List String) :
    List RemoteCall × Except PyError (List Tag) :=
  match env.getTags with
  | .error e => ([.getTags], .error e)
  | .ok existing =>
      let (cs, res) := getOrCreateTagsLoop (lookupTag existing) env.createTag names
      (.getTags :: cs, res)

/-- Featured-image upload loop (step 6 of the workflow): iterate the
image list, upload exactly the first image marked use_as_featured,
record the returned media id on that image descriptor, stop. -/
def uploadFeaturedLoop (env : WorkflowEnv) (topic : String) :
    List ImageInfo → List RemoteCall × Except PyError (Option Nat × List ImageInfo)
  | [] => ([], .ok (none, []))
  | img :: rest =>
    if img.use_as_featured then
      match env.uploadMedia img.path (topic ++ " - 대표 이미지") img.alt with
      | .error e => ([.uploadMedia img.path], .error e)
      | .ok media =>
          ([.uploadMedia img.path], .ok (media.id, { img with wp_media_id := media.id } :: rest))
    else
      let (cs, res) := uploadFeaturedLoop env topic rest
      (cs, res.map (fun p => (p.1, img :: p.2)))

/-- Construction of the WordPressPost payload (step 7), given the
already-evaluated keyword argument values.  The title is the content
topic; the status was derived from the (possibly overridden) schedule
mode before the date attribute access. -/
def wpPostOf (c : PostContent) (catIds tagIds : List (Option Nat))
    (featured_media : Option Nat) (status : PostStatus) (date : Option Timestamp) :
    WordPressPost :=
  { id := none
    title := c.topic
    content := c.content_html
    excerpt := c.excerpt
    slug := c.slug
    status := status
    date := date
    categories := catIds
    tags := tagIds
    featured_media := featured_media }

/-- The success dictionary returned by create_and_publish_post. -/
structure SuccessResult where
  job_id : String
  wp_post_id : Option Nat
  title : String
  status : String
  url : String
  quality_score : ℚ
  quality_passed : Bool
  quality_issues : List String
  deriving Repr, DecidableEq

/-- The try-block of create_and_publish_post (steps 2 through 8): each
collaborator failure short-circuits; the remote-call trace records the
calls issued up to that point.  On success it yields the result
dictionary together with the completed job record. -/
def runAttempt (st : Settings) (env : WorkflowEnv) (topic : String)
    (schedule_info : ScheduleInfo) (categories tags : Option (List String))
    (generate_image : Bool) (job : GenerationJob) (completedNow : Timestamp) :
    List RemoteCall × Except PyError (SuccessResult × GenerationJob) :=
  match env.genContent schedule_info categories tags with
  | .error e => ([], .error e)
  | .ok content0 =>
    let step3 : Except PyError PostContent :=
      if generate_image then
        env.featuredImage.map (fun img => { content0 with images := [img] })
      else .ok content0
    match step3 with
    | .error e => ([], .error e)
    | .ok content1 =>
      match env.quality with
      | .error e => ([], .error e)
      | .ok quality_result =>
        let content2 := applyQualityGate quality_result content1
        let (catCalls, catRes) := get_or_create_categories env content2.categories
        match catRes with
        | .error e => (catCalls, .error e)
        | .ok wp_categories =>
          let (tagCalls, tagRes) := get_or_create_tags env content2.tags
          match tagRes with
          | .error e => (catCalls ++ tagCalls, .error e)
          | .ok wp_tags =>
            let (upCalls, upRes) := uploadFeaturedLoop env topic content2.images
            match upRes with
            | .error e => (catCalls ++ tagCalls ++ upCalls, .error e)
            | .ok (featured_media_id, images2) =>
              let content3 := { content2 with images := images2 }
              let status := get_wp_status content3.schedule.mode
              match content3.schedule.attrDatetime with
              | .error e => (catCalls ++ tagCalls ++ upCalls, .error e)
              | .ok date =>
                let wp_post := wpPostOf content3 (wp_categories.map (fun c => c.id))
                  (wp_tags.map (fun t => t.id)) featured_media_id status date
                match env.createPost wp_post with
                | .error e =>
                    (catCalls ++ tagCalls ++ upCalls ++ [.createPost wp_post], .error e)
                | .ok created_post =>
                    let jobDone := { job with
                      status := "completed"
                      completed_at := some completedNow
                      wp_post_id := created_post.id
                      content := some content3 }
                    (catCalls ++ tagCalls ++ upCalls ++ [.createPost wp_post],
                     .ok ({ job_id := job.id
                            wp_post_id := created_post.id
                            title := created_post.title
                            status := created_post.status.value
                            url := st.wordpress_url ++ "/" ++ created_post.slug
                            quality_score := quality_result.score
                            quality_passed := quality_result.passed
                            quality_issues := quality_result.issues }, jobDone))

/-- Observable outcome of one orchestrator run: the returned value or
raised error, the final persisted state of the job record created for
this run (none when the run raised before the first save), and the
remote calls issued. -/
structure RunResult where
  outcome : Except PyError SuccessResult
  finalJob : Option GenerationJob
  calls : List RemoteCall
  deriving Repr

/-- BlogService.create_and_publish_post.  Step 1 builds the job record;
when the requested mode is Schedule the source reads the renamed
attribute schedule_info.datetime while building it, which raises before
the first save.  Otherwise the started record is saved, the try-block
runs, and the record is finalized as completed or failed. -/
def create_and_publish_post (st : Settings) (env : WorkflowEnv) (topic : String)
    (schedule_info : ScheduleInfo) (categories tags : Option (List String))
    (generate_image : Bool) (jobId : String) (now completedNow : Timestamp) : RunResult :=
  match (if schedule_info.mode = ScheduleMode.schedule
         then schedule_info.attrDatetime else .ok none) with
  | .error e => { outcome := .error e, finalJob := none, calls := [] }
  | .ok schedAt =>
    let job : GenerationJob :=
      { id := jobId, topic := topic, status := "started", created_at := now
        scheduled_at := schedAt }
    match runAttempt st env topic schedule_info categories tags generate_image job completedNow with
    | (calls, .ok (res, jobDone)) =>
        { outcome := .ok res, finalJob := some jobDone, calls := calls }
    | (calls, .error e) =>
        { outcome := .error e
          finalJob := some { job with status := "failed", error_message := some e.str }
          calls := calls }

/-- BlogService.retry_failed_job: look the job up; unknown ids and
non-failed jobs raise ValueError; a failed job re-runs the full
workflow on its original topic with a Draft schedule under a freshly
generated job id. -/
def retry_failed_job (st : Settings) (env : WorkflowEnv)
    (store : String → Option GenerationJob) (job_id : String) (newId : String)
    (now completedNow : Timestamp) : Except PyError RunResult :=
  match store job_id with
  | none => .error (.valueError ("작업을 찾을 수 없습니다: " ++ job_id))
  | some job =>
    if job.status ≠ "failed" then .error (.valueError "실패한 작업만 재시도할 수 있습니다")
    else .ok (create_and_publish_post st env job.topic
      { mode := ScheduleMode.draft, scheduled_at := none } none none true newId now completedNow)

/-- Remote calls performed by a retry invocation: none when it raised
before starting a workflow, otherwise the calls of the inner run. -/
def retryCalls (r : Except PyError RunResult) : List RemoteCall :=
  match r with
  | .error _ => []
  | .ok run => run.calls

/-! ## Concrete fixtures used by the closed theorems and witnesses -/

/-- Concrete settings used by the closed evaluations (word-count window
3 to 5 so that small texts exercise the boundaries). -/
def stFix : Settings :=
  { wordpress_url := "https://example.com"
    default_category := "AI"
    default_tags := "AI,자동화,블로그"
    min_word_count := 3
    max_word_count := 5
    plagiarism_check_enabled := true
    grammar_check_enabled := true }

/-- Settings with the grammar flag disabled. -/
def stNoGrammarFlag : Settings := { stFix with grammar_check_enabled := false }

/-- Concrete generated content (excerpt long enough to pass the SEO
check, slug short enough). -/
def contentFix : PostContent :=
  { topic := "Test Topic"
    outline := ["서론", "본론", "결론"]
    content_html := "<p>a b c d</p>"
    excerpt := String.mk (List.replicate 60 'e')
    slug := "test-topic"
    categories := ["Tech"]
    tags := ["TagA"]
    images := []
    schedule := { mode := ScheduleMode.draft, scheduled_at := none } }

/-- Collaborator environment in which every external call succeeds. -/
def envFix : WorkflowEnv :=
  { genContent := fun si _ _ => .ok { contentFix with schedule := si }
    featuredImage := .ok { path := "images/test-topic-featured.webp", alt := "대표 이미지", use_as_featured := true }
    quality := .ok { passed := true, score := 85, issues := [], suggestions := [] }
    getCategories := .ok []
    createCategory := fun n s => .ok { id := some 2, name := n, slug := s }
    getTags := .ok []
    createTag := fun n s => .ok { id := some 3, name := n, slug := s }
    uploadMedia := fun _ _ _ => .ok { id := some 9, title := "m", alt_text := "a" }
    createPost := fun p => .ok { p with id := some 7 } }

/-- Sub-checker responses with a single grammar finding and nothing
else (in-range word count for stFix). -/
def rGrammarOnly : SubResults :=
  { pageText := "a b c", grammarErrors := ["문법 오류 발견"] }

/-- Sub-checker responses with four spelling findings and nothing else. -/
def rFourSpell : SubResults :=
  { pageText := "a b c", spellErrors := ["s1", "s2", "s3", "s4"] }

/-- A persisted failed job record. -/
def jobFailedFix : GenerationJob :=
  { id := "old-job", topic := "T", status := "failed", created_at := 0
    error_message := some "boom" }

/-- A one-entry job store holding the failed record. -/
def storeFix : String → Option GenerationJob :=
  fun k => if k = "old-job" then some jobFailedFix else none

/-- Generator collaborator responses with a successfully parsed SEO
metadata dictionary. -/
def genvFix : GenEnv :=
  { outlineResult := .ok ["o1"]
    writeResult := .ok "<p>hi</p>"
    seoJson := .ok (some { title := "SEO best title", excerpt := "E", slug := "slg", keywords := "K" }) }

/-! ## Helper lemmas about the quality gate stages -/

/-- The word-count stage appends its issues and adds its debit to any
accumulator. -/
theorem wordStage_shape (st : Settings) (wc : Nat) (i : List String) (s : ℚ) :
    wordStage st wc (i, s) = (i ++ (wordStage st wc ([], 0)).1, s + (wordStage st wc ([], 0)).2) := by
  unfold wordStage
  split_ifs <;> simp <;> ring

/-- The spelling stage appends its issues and adds its debit to any
accumulator. -/
theorem spellStage_shape (st : Settings) (r : SubResults) (i : List String) (s : ℚ) :
    spellStage st r (i, s) = (i ++ (spellStage st r ([], 0)).1, s + (spellStage st r ([], 0)).2) := by
  unfold spellStage
  split_ifs <;> simp <;> ring

/-- The grammar stage appends its issues and adds its debit to any
accumulator. -/
theorem grammarStage_shape (r : SubResults) (i : List String) (s : ℚ) :
    grammarStage r (i, s) = (i ++ (grammarStage r ([], 0)).1, s + (grammarStage r ([], 0)).2) := by
  unfold grammarStage
  split_ifs <;> simp <;> ring

/-- The plagiarism stage appends its issues and adds its debit to any
accumulator. -/
theorem plagStage_shape (st : Settings) (r : SubResults) (i : List String) (s : ℚ) :
    plagStage st r (i, s) = (i ++ (plagStage st r ([], 0)).1, s + (plagStage st r ([], 0)).2) := by
  unfold plagStage
  split_ifs <;> simp <;> ring

/-- The link stage appends its issues and adds its debit to any
accumulator. -/
theorem linkStage_shape (r : SubResults) (i : List String) (s : ℚ) :
    linkStage r (i, s) = (i ++ (linkStage r ([], 0)).1, s + (linkStage r ([], 0)).2) := by
  unfold linkStage
  split_ifs <;> simp <;> ring

/-- The SEO stage appends its issues and adds its debit to any
accumulator. -/
theorem seoStage_shape (c : PostContent) (i : List String) (s : ℚ) :
    seoStage c (i, s) = (i ++ (seoStage c ([], 0)).1, s + (seoStage c ([], 0)).2) := by
  unfold seoStage
  split_ifs <;> simp <;> ring

/-- Decomposition of the sequential scoring loop: the issue list is the
concatenation of the per-stage issue lists in source order, and the
pre-clamp score is 100 plus the per-stage debits. -/
theorem quality_parts (st : Settings) (c : PostContent) (r : SubResults) (wc : Nat) :
    seoStage c (linkStage r (plagStage st r (grammarStage r (spellStage st r (wordStage st wc ([], 100)))))) =
      ((wordStage st wc ([], 0)).1 ++ (spellStage st r ([], 0)).1 ++ (grammarStage r ([], 0)).1
        ++ (plagStage st r ([], 0)).1 ++ (linkStage r ([], 0)).1 ++ (seoStage c ([], 0)).1,
       100 + (wordStage st wc ([], 0)).2 + (spellStage st r ([], 0)).2 + (grammarStage r ([], 0)).2
        + (plagStage st r ([], 0)).2 + (linkStage r ([], 0)).2 + (seoStage c ([], 0)).2) := by
  rw [wordStage_shape, spellStage_shape, grammarStage_shape, plagStage_shape,
    linkStage_shape, seoStage_shape]
  simp [List.append_assoc]

/-- Replacing the extracted page text only changes the word count fed to
the first stage. -/
theorem quality_raw_pageText (st : Settings) (c : PostContent) (r : SubResults) (t : String) :
    quality_raw st c { r with pageText := t } =
      seoStage c (linkStage r (plagStage st r (grammarStage r
        (spellStage st r (wordStage st (count_words t) ([], 100)))))) := rfl

/-- The issue list of a quality check result is the issue list of the
raw scoring loop. -/
theorem check_quality_issues (st : Settings) (c : PostContent) (r : SubResults) :
    (check_quality st c r).issues = (quality_raw st c r).1 := rfl

/-- With the grammar flag disabled the spelling stage is skipped. -/
theorem spellStage_off (st : Settings) (r : SubResults) (acc : List String × ℚ)
    (h : st.grammar_check_enabled = false) : spellStage st r acc = acc := by
  simp [spellStage, h]

/-- With the plagiarism flag disabled the plagiarism stage is skipped. -/
theorem plagStage_off (st : Settings) (r : SubResults) (acc : List String × ℚ)
    (h : st.plagiarism_check_enabled = false) : plagStage st r acc = acc := by
  simp [plagStage, h]

/-- The spelling stage ignores the page text. -/
theorem spellStage_pageText (st : Settings) (r : SubResults) (t : String)
    (acc : List String × ℚ) : spellStage st { r with pageText := t } acc = spellStage st r acc := rfl

/-- The grammar stage ignores the page text. -/
theorem grammarStage_pageText (r : SubResults) (t : String) (acc : List String × ℚ) :
    grammarStage { r with pageText := t } acc = grammarStage r acc := rfl

/-- The plagiarism stage ignores the page text. -/
theorem plagStage_pageText (st : Settings) (r : SubResults) (t : String)
    (acc : List String × ℚ) : plagStage st { r with pageText := t } acc = plagStage st r acc := rfl

/-- The link stage ignores the page text. -/
theorem linkStage_pageText (r : SubResults) (t : String) (acc : List String × ℚ) :
    linkStage { r with pageText := t } acc = linkStage r acc := rfl

/-- Issue-list decomposition of check_quality: the issues are the
per-stage issue lists concatenated in source order. -/
theorem check_quality_issues_decomp (st : Settings) (c : PostContent) (r : SubResults) :
    (check_quality st c r).issues =
      (wordStage st (count_words r.pageText) ([], 0)).1 ++ (spellStage st r ([], 0)).1
        ++ (grammarStage r ([], 0)).1 ++ (plagStage st r ([], 0)).1 ++ (linkStage r ([], 0)).1
        ++ (seoStage c ([], 0)).1 := by
  have h := quality_parts st c r (count_words r.pageText)
  rw [check_quality_issues]
  rw [show quality_raw st c r =
    seoStage c (linkStage r (plagStage st r (grammarStage r
      (spellStage st r (wordStage st (count_words r.pageText) ([], 100)))))) from rfl, h]

/-- With the grammar flag disabled the spelling findings do not affect
the scoring loop. -/
theorem quality_raw_drop_spell (st : Settings) (c : PostContent) (r : SubResults)
    (h : st.grammar_check_enabled = false) :
    quality_raw st c r = quality_raw st c { r with spellErrors := [] } := by
  have e1 : quality_raw st c r
      = seoStage c (linkStage r (plagStage st r (grammarStage r
          (wordStage st (count_words r.pageText) ([], 100))))) := by
    show seoStage c (linkStage r (plagStage st r (grammarStage r (spellStage st r
      (wordStage st (count_words r.pageText) ([], 100)))))) = _
    rw [spellStage_off st r _ h]
  have e2 : quality_raw st c { r with spellErrors := [] }
      = seoStage c (linkStage r (plagStage st r (grammarStage r
          (wordStage st (count_words r.pageText) ([], 100))))) := by
    have estep : quality_raw st c { r with spellErrors := [] }
        = seoStage c (linkStage r (plagStage st r (grammarStage r
            (spellStage st { r with spellErrors := [] }
              (wordStage st (count_words r.pageText) ([], 100)))))) := rfl
    rw [estep, spellStage_off st _ _ h]
  rw [e1, e2]

/-- With the plagiarism flag disabled the similarity score does not
affect the scoring loop. -/
theorem quality_raw_drop_sim (st : Settings) (c : PostContent) (r : SubResults)
    (h : st.plagiarism_check_enabled = false) :
    quality_raw st c r = quality_raw st c { r with similarity := 0 } := by
  have e1 : quality_raw st c r
      = seoStage c (linkStage r (grammarStage r (spellStage st r
          (wordStage st (count_words r.pageText) ([], 100))))) := by
    show seoStage c (linkStage r (plagStage st r (grammarStage r (spellStage st r
      (wordStage st (count_words r.pageText) ([], 100)))))) = _
    rw [plagStage_off st r _ h]
  have e2 : quality_raw st c { r with similarity := 0 }
      = seoStage c (linkStage r (grammarStage r (spellStage st r
          (wordStage st (count_words r.pageText) ([], 100))))) := by
    have estep : quality_raw st c { r with similarity := 0 }
        = seoStage c (linkStage r (plagStage st { r with similarity := 0 } (grammarStage r
            (spellStage st r (wordStage st (count_words r.pageText) ([], 100)))))) := rfl
    rw [estep, plagStage_off st _ _ h]
  rw [e1, e2]

/-- Decomposition of the scoring loop after replacing only the page
text: the stages other than the word-count stage are unchanged. -/
theorem quality_raw_set_text (st : Settings) (c : PostContent) (r : SubResults) (t : String) :
    quality_raw st c { r with pageText := t } =
      ((wordStage st (count_words t) ([], 0)).1 ++ (spellStage st r ([], 0)).1
        ++ (grammarStage r ([], 0)).1 ++ (plagStage st r ([], 0)).1 ++ (linkStage r ([], 0)).1
        ++ (seoStage c ([], 0)).1,
       100 + (wordStage st (count_words t) ([], 0)).2 + (spellStage st r ([], 0)).2
        + (grammarStage r ([], 0)).2 + (plagStage st r ([], 0)).2 + (linkStage r ([], 0)).2
        + (seoStage c ([], 0)).2) := by
  have h := quality_parts st c { r with pageText := t } (count_words t)
  simp only [spellStage_pageText, grammarStage_pageText, plagStage_pageText,
    linkStage_pageText] at h
  exact h

/-! ## Claim theorems -/

/-- The category resolution loop never issues a list-fetch call. -/
theorem catLoop_no_fetch (lookup : String → Option Category)
    (create : String → String → Except PyError Category) (names : List String) :
    RemoteCall.getCategories ∉ (getOrCreateCategoriesLoop lookup create names).1 := by
  induction names with
  | nil => simp [getOrCreateCategoriesLoop]
  | cons n rest ih =>
    cases hl : lookup n with
    | some cat => simpa [getOrCreateCategoriesLoop, hl] using ih
    | none =>
      cases hc : create n (slugify n) with
      | error e => simp [getOrCreateCategoriesLoop, hl, hc]
      | ok cat => simp [getOrCreateCategoriesLoop, hl, hc, ih]

/-- The tag resolution loop never issues a list-fetch call. -/
theorem tagLoop_no_fetch (lookup : String → Option Tag)
    (create : String → String → Except PyError Tag) (names : List String) :
    RemoteCall.getTags ∉ (getOrCreateTagsLoop lookup create names).1 := by
  induction names with
  | nil => simp [getOrCreateTagsLoop]
  | cons n rest ih =>
    cases hl : lookup n with
    | some tag => simpa [getOrCreateTagsLoop, hl] using ih
    | none =>
      cases hc : create n (slugify n) with
      | error e => simp [getOrCreateTagsLoop, hl, hc]
      | ok tag => simp [getOrCreateTagsLoop, hl, hc, ih]

/-- The try-block of the workflow never returns a success value: the
date keyword argument of the WordPressPost construction reads the
renamed attribute and raises first. -/
theorem runAttempt_not_ok (st : Settings) (env : WorkflowEnv) (topic : String)
    (schedule_info : ScheduleInfo) (categories tags : Option (List String))
    (generate_image : Bool) (job : GenerationJob) (completedNow : Timestamp)
    (x : SuccessResult × GenerationJob) :
    (runAttempt st env topic schedule_info categories tags generate_image job completedNow).2
      ≠ .ok x := by
  unfold runAttempt
  cases hg : env.genContent schedule_info categories tags <;>
    cases hf : env.featuredImage <;>
      cases hq : env.quality <;>
        simp only [Except.map] <;>
          (repeat' split) <;> simp_all [ScheduleInfo.attrDatetime]

/-- C1: the claim fails on the code.  With every collaborator
succeeding, a request in Schedule mode makes the workflow raise
AttributeError while constructing the initial job record (the source
reads the renamed attribute schedule_info.datetime before the first
save), so the run raises without persisting any job record at all -
there is no persisted record with final status failed, contradicting
the claimed dichotomy.  The evaluation below shows the raised error,
the absent job record, and the empty remote-call trace. -/
theorem C1_schedule_mode_raises_without_failed_record :
    create_and_publish_post stFix envFix "quantum computing"
      { mode := ScheduleMode.schedule, scheduled_at := some 10 } none none true
      "job-old" 0 1 =
    { outcome := .error (.attributeError "ScheduleInfo object has no attribute datetime")
      finalJob := none
      calls := [] } := rfl

/-- C2: the claim fails on the code.  In the end-to-end Publish
scenario (topic Test Topic, quality gate passes with score 85, every
collaborator succeeding) the workflow never reaches post creation: it
raises AttributeError at the WordPressPost construction because the
source reads content.schedule.datetime although the field is named
scheduled_at, and the job record is finalized as failed instead of
completed. -/
theorem C2_publish_scenario_crashes_on_renamed_field :
    ((create_and_publish_post stFix envFix "Test Topic"
        { mode := ScheduleMode.publish, scheduled_at := none } none none true
        "job-1" 0 1).outcome =
      .error (.attributeError "ScheduleInfo object has no attribute datetime"))
    ∧ ((create_and_publish_post stFix envFix "Test Topic"
        { mode := ScheduleMode.publish, scheduled_at := none } none none true
        "job-1" 0 1).finalJob =
      some { id := "job-1", topic := "Test Topic", status := "failed", created_at := 0
             scheduled_at := none, completed_at := none, wp_post_id := none
             error_message := some "ScheduleInfo object has no attribute datetime"
             content := none }) := ⟨rfl, rfl⟩

/-- C3: whenever the quality gate result has passed equal to false, the
status the orchestrator derives for the WordPress post - the
_get_wp_status image of the gate-overridden schedule mode - is draft,
regardless of the originally requested mode. -/
theorem C3_failed_gate_forces_draft_status (q : QualityCheckResult) (c : PostContent)
    (h : q.passed = false) :
    get_wp_status ((applyQualityGate q c).schedule.mode) = PostStatus.draft := by
  simp [applyQualityGate, h, get_wp_status]

/-- C3 witness: a failing gate result applied to concrete content in
Publish mode yields a draft post status. -/
theorem C3_failed_gate_forces_draft_status_witness :
    get_wp_status ((applyQualityGate { passed := false, score := 40 }
      { contentFix with schedule := { mode := ScheduleMode.publish } }).schedule.mode)
    = PostStatus.draft :=
  C3_failed_gate_forces_draft_status _ _ rfl

/-- C5: the pass flag of every quality check result equals the
conjunction of the clamped final score being at least 70 and the issue
count being at most 3; in particular any result carrying 4 issues has
passed equal to false whatever its score (hence a score-95 result with
4 issues fails). -/
theorem C5_pass_rule :
    (∀ (st : Settings) (c : PostContent) (r : SubResults),
      (check_quality st c r).passed =
        (decide ((70 : ℚ) ≤ (check_quality st c r).score)
          && decide ((check_quality st c r).issues.length ≤ 3)))
    ∧ (∀ (st : Settings) (c : PostContent) (r : SubResults),
      (check_quality st c r).issues.length = 4 → (check_quality st c r).passed = false) := by
  constructor
  · intro st c r
    rfl
  · intro st c r h
    have hp : (check_quality st c r).passed =
        (decide ((70 : ℚ) ≤ (check_quality st c r).score)
          && decide ((check_quality st c r).issues.length ≤ 3)) := rfl
    rw [hp, h]
    simp

/-- C5 witness: a concrete evaluation recording four spelling issues
(score 80, above the threshold) still fails the gate. -/
theorem C5_pass_rule_witness :
    (check_quality stFix contentFix rFourSpell).passed = false :=
  C5_pass_rule.2 stFix contentFix rFourSpell (by decide)

/-- C4 counterexample: the grammar check is not toggleable by its own
flag.  With grammar_check_enabled set to false (the only grammar-named
flag in config.py) and a single grammar finding, the evaluation still
records the grammar finding as an issue - the grammar check ran. -/
theorem C4_grammar_flag_counterexample :
    stNoGrammarFlag.grammar_check_enabled = false
    ∧ (check_quality stNoGrammarFlag contentFix rGrammarOnly).issues = ["문법 오류 발견"] :=
  ⟨rfl, rfl⟩

/-- C4 amended: in check_quality only the plagiarism check is gated by
its own flag (plagiarism_check_enabled); the spelling check is gated by
grammar_check_enabled rather than a flag of its own; the grammar check
and the link check have no flag and run on every evaluation, as do the
word-count and SEO checks.  Stated behaviourally: a disabled flag makes
the corresponding findings irrelevant to the result, an enabled flag
surfaces them, and the unflagged checks surface their findings under
every flag configuration. -/
theorem C4_toggle_flags_amended :
    (∀ (st : Settings) (c : PostContent) (r : SubResults),
      st.grammar_check_enabled = false →
        check_quality st c r = check_quality st c { r with spellErrors := [] })
    ∧ (∀ (st : Settings) (c : PostContent) (r : SubResults) (e : String),
      st.grammar_check_enabled = true → e ∈ r.spellErrors →
        e ∈ (check_quality st c r).issues)
    ∧ (∀ (st : Settings) (c : PostContent) (r : SubResults),
      st.plagiarism_check_enabled = false →
        check_quality st c r = check_quality st c { r with similarity := 0 })
    ∧ (∀ (st : Settings) (c : PostContent) (r : SubResults),
      st.plagiarism_check_enabled = true → 50 < r.similarity →
        simMsg r.similarity ∈ (check_quality st c r).issues)
    ∧ (∀ (st : Settings) (c : PostContent) (r : SubResults) (e : String),
      e ∈ r.grammarErrors → e ∈ (check_quality st c r).issues)
    ∧ (∀ (st : Settings) (c : PostContent) (r : SubResults) (u : String),
      u ∈ r.brokenLinks → brokenLinkMsg u ∈ (check_quality st c r).issues)
    ∧ (∀ (st : Settings) (c : PostContent) (r : SubResults),
      count_words r.pageText < st.min_word_count →
        tooShortMsg (count_words r.pageText) st.min_word_count ∈ (check_quality st c r).issues)
    ∧ (∀ (st : Settings) (c : PostContent) (r : SubResults),
      c.excerpt.length < 50 → excerptShortMsg ∈ (check_quality st c r).issues) := by
  refine ⟨?_, ?_, ?_, ?_, ?_, ?_, ?_, ?_⟩
  · intro st c r h
    have hq := quality_raw_drop_spell st c r h
    simp only [check_quality]
    rw [hq]
    rfl
  · intro st c r e hflag he
    have hne : r.spellErrors ≠ [] := by
      intro hnil
      rw [hnil] at he
      exact absurd he (List.not_mem_nil e)
    rw [check_quality_issues_decomp]
    simp [List.mem_append, spellStage, hflag, hne]
    tauto
  · intro st c r h
    have hq := quality_raw_drop_sim st c r h
    simp only [check_quality]
    rw [hq]
    rfl
  · intro st c r hflag hsim
    rw [check_quality_issues_decomp]
    simp [List.mem_append, plagStage, hflag, hsim]
  · intro st c r e he
    have hne : r.grammarErrors ≠ [] := by
      intro hnil
      rw [hnil] at he
      exact absurd he (List.not_mem_nil e)
    rw [check_quality_issues_decomp]
    simp [List.mem_append, grammarStage, hne]
    tauto
  · intro st c r u hu
    have hne : r.brokenLinks ≠ [] := by
      intro hnil
      rw [hnil] at hu
      exact absurd hu (List.not_mem_nil u)
    have hmem : brokenLinkMsg u ∈ (linkStage r ([], 0)).1 := by
      simp only [linkStage, if_pos hne]
      simp only [List.nil_append, List.mem_map]
      exact ⟨u, hu, rfl⟩
    rw [check_quality_issues_decomp]
    simp [List.mem_append]
    tauto
  · intro st c r hlt
    rw [check_quality_issues_decomp]
    simp [List.mem_append, wordStage, hlt]
  · intro st c r hex
    rw [check_quality_issues_decomp]
    simp only [seoStage, List.mem_append]
    have : c.excerpt = "" ∨ c.excerpt.length < 50 := Or.inr hex
    rw [if_pos this]
    split_ifs <;> simp

/-- C4 witness: the grammar-always conjunct applied to the concrete
single-grammar-finding evaluation. -/
theorem C4_toggle_flags_amended_witness :
    "문법 오류 발견" ∈ (check_quality stFix contentFix rGrammarOnly).issues :=
  C4_toggle_flags_amended.2.2.2.2.1 stFix contentFix rGrammarOnly "문법 오류 발견" (by decide)

/-- C6: with the word-count window nonempty, three evaluations that
differ only in the extracted page text - one token below minimum, at
minimum, and above maximum - produce the same issues except for the
word-count issue, which appears exactly in the short run (with a
20-point debit of the raw score) and in the long run (with a 10-point
debit); the run at exactly the minimum gets neither the issue nor a
debit.  The counter counts whitespace-delimited tokens. -/
theorem C6_word_count_boundary (st : Settings) (c : PostContent) (r : SubResults)
    (t0 t1 t2 : String)
    (hmin : 1 ≤ st.min_word_count) (hwin : st.min_word_count ≤ st.max_word_count)
    (h0 : count_words t0 = st.min_word_count - 1)
    (h1 : count_words t1 = st.min_word_count)
    (h2 : st.max_word_count < count_words t2) :
    ∃ L, (check_quality st c { r with pageText := t0 }).issues
            = tooShortMsg (st.min_word_count - 1) st.min_word_count :: L
      ∧ (check_quality st c { r with pageText := t1 }).issues = L
      ∧ (check_quality st c { r with pageText := t2 }).issues
            = tooLongMsg (count_words t2) st.max_word_count :: L
      ∧ (quality_raw st c { r with pageText := t0 }).2
            = (quality_raw st c { r with pageText := t1 }).2 - 20
      ∧ (quality_raw st c { r with pageText := t2 }).2
            = (quality_raw st c { r with pageText := t1 }).2 - 10 := by
  have w0 : wordStage st (count_words t0) ([], 0) =
      ([tooShortMsg (st.min_word_count - 1) st.min_word_count], -20) := by
    rw [h0]
    unfold wordStage
    rw [if_pos (by omega)]
    simp
  have w1 : wordStage st (count_words t1) ([], 0) = ([], 0) := by
    rw [h1]
    unfold wordStage
    rw [if_neg (by omega), if_neg (by omega)]
  have w2 : wordStage st (count_words t2) ([], 0) =
      ([tooLongMsg (count_words t2) st.max_word_count], -10) := by
    unfold wordStage
    rw [if_neg (by omega), if_pos (by omega)]
    simp
  refine ⟨(spellStage st r ([], 0)).1 ++ ((grammarStage r ([], 0)).1 ++ ((plagStage st r ([], 0)).1
    ++ ((linkStage r ([], 0)).1 ++ (seoStage c ([], 0)).1))), ?_, ?_, ?_, ?_, ?_⟩
  · rw [show (check_quality st c { r with pageText := t0 }).issues
        = (quality_raw st c { r with pageText := t0 }).1 from rfl, quality_raw_set_text, w0]
    simp [List.append_assoc]
  · rw [show (check_quality st c { r with pageText := t1 }).issues
        = (quality_raw st c { r with pageText := t1 }).1 from rfl, quality_raw_set_text, w1]
    simp [List.append_assoc]
  · rw [show (check_quality st c { r with pageText := t2 }).issues
        = (quality_raw st c { r with pageText := t2 }).1 from rfl, quality_raw_set_text, w2]
    simp [List.append_assoc]
  · rw [quality_raw_set_text, quality_raw_set_text, w0, w1]
    simp
    ring
  · rw [quality_raw_set_text, quality_raw_set_text, w2, w1]
    simp
    ring

/-- C7: taxonomy resolution.  With an infallible creation collaborator,
the loop resolves the requested names in input order - reusing the
existing entity on a name match, otherwise issuing a creation call with
the slugified name - the returned sequence preserves input order, the
issued creation calls are exactly the missing names in input order
(duplicates included), the remote list is fetched exactly once per
call, and on the concrete input B, A, B with nothing existing the
creation calls happen in order B, A, B and the result repeats the B
entity around the A entity.  The same holds for tags. -/
theorem C7_taxonomy_resolution_order :
    (∀ (lookup : String → Option Category) (f : String → String → Category) (names : List String),
      getOrCreateCategoriesLoop lookup (fun n s => .ok (f n s)) names =
        ((names.filter (fun n => (lookup n).isNone)).map
            (fun n => RemoteCall.createCategory n (slugify n)),
         .ok (names.map (fun n =>
            match lookup n with
            | some cat => cat
            | none => f n (slugify n)))))
    ∧ (∀ (lookup : String → Option Tag) (f : String → String → Tag) (names : List String),
      getOrCreateTagsLoop lookup (fun n s => .ok (f n s)) names =
        ((names.filter (fun n => (lookup n).isNone)).map
            (fun n => RemoteCall.createTag n (slugify n)),
         .ok (names.map (fun n =>
            match lookup n with
            | some tag => tag
            | none => f n (slugify n)))))
    ∧ (∀ (env : WorkflowEnv) (names : List String),
      (get_or_create_categories env names).1.count RemoteCall.getCategories = 1)
    ∧ (∀ (env : WorkflowEnv) (names : List String),
      (get_or_create_tags env names).1.count RemoteCall.getTags = 1)
    ∧ get_or_create_categories envFix ["B", "A", "B"] =
        ([.getCategories, .createCategory "B" "b", .createCategory "A" "a",
          .createCategory "B" "b"],
         .ok [{ id := some 2, name := "B", slug := "b" }, { id := some 2, name := "A", slug := "a" },
              { id := some 2, name := "B", slug := "b" }])
    ∧ get_or_create_tags envFix ["B", "A", "B"] =
        ([.getTags, .createTag "B" "b", .createTag "A" "a", .createTag "B" "b"],
         .ok [{ id := some 3, name := "B", slug := "b" }, { id := some 3, name := "A", slug := "a" },
              { id := some 3, name := "B", slug := "b" }]) := by
  refine ⟨?_, ?_, ?_, ?_, rfl, rfl⟩
  · intro lookup f names
    induction names with
    | nil => simp [getOrCreateCategoriesLoop]
    | cons n rest ih =>
      cases hl : lookup n with
      | some cat => simp [getOrCreateCategoriesLoop, Except.map, hl, ih]
      | none => simp [getOrCreateCategoriesLoop, Except.map, hl, ih]
  · intro lookup f names
    induction names with
    | nil => simp [getOrCreateTagsLoop]
    | cons n rest ih =>
      cases hl : lookup n with
      | some tag => simp [getOrCreateTagsLoop, Except.map, hl, ih]
      | none => simp [getOrCreateTagsLoop, Except.map, hl, ih]
  · intro env names
    unfold get_or_create_categories
    cases hc : env.getCategories with
    | error e => simp
    | ok existing =>
      have hno := catLoop_no_fetch (lookupCategory existing) env.createCategory names
      simp [List.count_cons]
      exact List.count_eq_zero.mpr hno
  · intro env names
    unfold get_or_create_tags
    cases hc : env.getTags with
    | error e => simp
    | ok existing =>
      have hno := tagLoop_no_fetch (lookupTag existing) env.createTag names
      simp [List.count_cons]
      exact List.count_eq_zero.mpr hno

/-- C8: retry semantics.  An unknown job id raises ValueError with no
remote calls; a job whose status is not failed raises the invalid-state
ValueError with no remote calls; a failed job re-runs the full publish
workflow on its original topic with a Draft-mode ScheduleInfo under the
freshly generated job id; and any job record a workflow run persists
carries the job id of that run (so a retry under a fresh id never
touches the old record). -/
theorem C8_retry_preconditions :
    (∀ (st : Settings) (env : WorkflowEnv) (store : String → Option GenerationJob)
        (job_id newId : String) (now c2 : Timestamp),
      store job_id = none →
        retry_failed_job st env store job_id newId now c2
            = .error (.valueError ("작업을 찾을 수 없습니다: " ++ job_id))
          ∧ retryCalls (retry_failed_job st env store job_id newId now c2) = [])
    ∧ (∀ (st : Settings) (env : WorkflowEnv) (store : String → Option GenerationJob)
        (job_id newId : String) (now c2 : Timestamp) (j : GenerationJob),
      store job_id = some j → j.status ≠ "failed" →
        retry_failed_job st env store job_id newId now c2
            = .error (.valueError "실패한 작업만 재시도할 수 있습니다")
          ∧ retryCalls (retry_failed_job st env store job_id newId now c2) = [])
    ∧ (∀ (st : Settings) (env : WorkflowEnv) (store : String → Option GenerationJob)
        (job_id newId : String) (now c2 : Timestamp) (j : GenerationJob),
      store job_id = some j → j.status = "failed" →
        retry_failed_job st env store job_id newId now c2
          = .ok (create_and_publish_post st env j.topic
              { mode := ScheduleMode.draft, scheduled_at := none } none none true newId now c2))
    ∧ (∀ (st : Settings) (env : WorkflowEnv) (topic : String) (si : ScheduleInfo)
        (cats tags : Option (List String)) (gi : Bool) (jobId : String) (now c2 : Timestamp)
        (j : GenerationJob),
      (create_and_publish_post st env topic si cats tags gi jobId now c2).finalJob = some j →
        j.id = jobId) := by
  refine ⟨?_, ?_, ?_, ?_⟩
  · intro st env store job_id newId now c2 h
    constructor
    · unfold retry_failed_job
      rw [h]
    · unfold retryCalls retry_failed_job
      rw [h]
  · intro st env store job_id newId now c2 j h hs
    constructor
    · unfold retry_failed_job
      rw [h]
      simp [hs]
    · unfold retryCalls retry_failed_job
      rw [h]
      simp [hs]
  · intro st env store job_id newId now c2 j h hs
    unfold retry_failed_job
    rw [h]
    simp [hs]
  · intro st env topic si cats tags gi jobId now c2 j h
    unfold create_and_publish_post at h
    split at h
    · simp at h
    · dsimp only at h
      split at h
      · rename_i calls res jobDone heq
        exact absurd (congrArg Prod.snd heq)
          (fun hcontra => runAttempt_not_ok st env topic si cats tags gi _ c2 _ hcontra)
      · simp only [RunResult.mk.injEq] at h
        rcases h with h
        simp at h
        rw [← h]

/-- C8 witness: retrying the stored failed job yields exactly the
workflow run on its original topic with a Draft schedule and the fresh
job id. -/
theorem C8_retry_preconditions_witness :
    retry_failed_job stFix envFix storeFix "old-job" "fresh-id" 0 1
      = .ok (create_and_publish_post stFix envFix "T"
          { mode := ScheduleMode.draft, scheduled_at := none } none none true "fresh-id" 0 1) :=
  C8_retry_preconditions.2.2.1 stFix envFix storeFix "old-job" "fresh-id" 0 1 jobFailedFix
    rfl rfl

/-- C9: when the SEO metadata response fails to parse, optimize_content
returns the deterministic default (topic as title, the canned excerpt,
the slugified topic, the topic as sole keyword) instead of failing, and
generate_content succeeds, building the PostContent from that fallback. -/
theorem C9_seo_parse_failure_fallback :
    (∀ topic : String,
      optimize_content (.ok none) topic =
        .ok { title := topic
              excerpt := topic ++ "에 대한 상세한 정보를 제공합니다."
              slug := slugify topic
              keywords := topic })
    ∧ (∀ (st : Settings) (topic : String) (o : List String) (html : String)
        (si : Option ScheduleInfo) (cats tags : Option (List String)),
      ∃ c : PostContent,
        generate_content st { outlineResult := .ok o, writeResult := .ok html, seoJson := .ok none }
            topic si cats tags = .ok c
          ∧ c.excerpt = topic ++ "에 대한 상세한 정보를 제공합니다."
          ∧ c.slug = slugify topic
          ∧ c.topic = topic
          ∧ c.content_html = html
          ∧ c.outline = o) := by
  refine ⟨fun topic => rfl, ?_⟩
  intro st topic o html si cats tags
  exact ⟨_, rfl, rfl, rfl, rfl, rfl, rfl⟩

/-- C10: the SEO-optimized title is discarded and the post title is the
topic.  Changing only the title of a successfully parsed SEO response
does not change the generated PostContent at all (it carries no title
field); every successfully generated PostContent has the input topic as
its topic; and the WordPressPost payload the orchestrator assembles has
the content topic, verbatim, as its title. -/
theorem C10_post_title_is_topic :
    (∀ (st : Settings) (topic : String) (o : List String) (html : String) (m : SeoMeta)
        (t2 : String) (si : Option ScheduleInfo) (cats tags : Option (List String)),
      generate_content st
          { outlineResult := .ok o, writeResult := .ok html, seoJson := .ok (some m) }
          topic si cats tags =
        generate_content st
          { outlineResult := .ok o, writeResult := .ok html,
            seoJson := .ok (some { m with title := t2 }) }
          topic si cats tags)
    ∧ (∀ (st : Settings) (genv : GenEnv) (topic : String) (si : Option ScheduleInfo)
        (cats tags : Option (List String)) (c : PostContent),
      generate_content st genv topic si cats tags = .ok c → c.topic = topic)
    ∧ (∀ (c : PostContent) (catIds tagIds : List (Option Nat)) (fm : Option Nat)
        (status : PostStatus) (date : Option Timestamp),
      (wpPostOf c catIds tagIds fm status date).title = c.topic) := by
  refine ⟨fun st topic o html m t2 si cats tags => rfl, ?_, fun c catIds tagIds fm status date => rfl⟩
  intro st genv topic si cats tags c h
  obtain ⟨og, wg, sg⟩ := genv
  cases og with
  | error e => simp [generate_content] at h
  | ok o =>
    cases wg with
    | error e => simp [generate_content] at h
    | ok w =>
      cases sg with
      | error e => simp [generate_content, optimize_content] at h
      | ok mo =>
        cases mo with
        | none =>
          simp [generate_content, optimize_content] at h
          rw [← h]
        | some m =>
          simp [generate_content, optimize_content] at h
          rw [← h]

/-- C10 witness: a concrete successful generation run yields the topic
as the content topic. -/
theorem C10_post_title_is_topic_witness :
    ({ topic := "t", outline := ["o1"], content_html := "<p>hi</p>", excerpt := "E"
       slug := "slg", categories := ["AI"], tags := ["AI", "자동화", "블로그"], images := []
       schedule := { mode := ScheduleMode.draft, scheduled_at := none } } : PostContent).topic
      = "t" :=
  C10_post_title_is_topic.2.1 stFix genvFix "t" none none none _ rfl

/-- C6 witness: with minimum 3 and maximum 5, the two-token text gets
the too-short issue and debit, the three-token text gets neither, and
the six-token text gets the too-long issue and debit. -/
theorem C6_word_count_boundary_witness :
    ∃ L, (check_quality stFix contentFix { rGrammarOnly with pageText := "a b" }).issues
            = tooShortMsg 2 3 :: L
      ∧ (check_quality stFix contentFix { rGrammarOnly with pageText := "a b c" }).issues = L
      ∧ (check_quality stFix contentFix { rGrammarOnly with pageText := "a b c d e f" }).issues
            = tooLongMsg 6 5 :: L
      ∧ (quality_raw stFix contentFix { rGrammarOnly with pageText := "a b" }).2
            = (quality_raw stFix contentFix { rGrammarOnly with pageText := "a b c" }).2 - 20
      ∧ (quality_raw stFix contentFix { rGrammarOnly with pageText := "a b c d e f" }).2
            = (quality_raw stFix contentFix { rGrammarOnly with pageText := "a b c" }).2 - 10 :=
  C6_word_count_boundary stFix contentFix rGrammarOnly "a b" "a b c" "a b c d e f"
    (by decide) (by decide) (by decide) (by decide) (by decide)

end BlogAuto
